import Mathlib

/-!
Shallow embedding of the convex-stripe component: the entity store, the
upsert/delete/deactivate mutations (src/component/lib.ts and the
deactivate variants), the webhook reconciliation engine
(src/client/index.ts), and the backfill sync routines
(src/client/invoices.ts syncSubscriptions; the products sync).

Tables are lists of rows in insertion order; Convex document ids are
modelled as natural numbers handed out by a freshness counter; an
indexed .first() lookup is List.find? over the table (index order for a
fixed key equals creation order, which is list order here).
-/

namespace ConvexStripe

/-- Stripe metadata bag: string-to-string mapping. -/
abbrev Metadata := List (String × String)

/-- JavaScript `x || undefined` for an optional number: null and 0 are falsy. -/
def jsNumOrUndef (o : Option Int) : Option Int :=
  match o with
  | some n => if n == 0 then none else some n
  | none => none

/-- JavaScript `s || undefined` for an optional string: null and "" are falsy. -/
def jsStrOrUndef (o : Option String) : Option String :=
  match o with
  | some s => if s == "" then none else some s
  | none => none

/-- JavaScript `s || d` for an optional string with a default. -/
def jsStrOrD (o : Option String) (d : String) : String :=
  match o with
  | some s => if s == "" then d else s
  | none => d

/-- stripeUtils.ts extractMetadata: `metadata || undefined` (null maps to
undefined; an empty object is truthy, so this is the identity on our
Option model). -/
def extractMetadata (m : Option Metadata) : Option Metadata := m

-- ===== ENTITY STORE ROWS (src/component/schema.ts) =====

/-- A row of the customers table. -/
structure Customer where
  id : Nat
  stripeId : String
  userId : String
  email : String
  name : Option String
  currency : Option String
  created : Int
  metadata : Option Metadata
deriving DecidableEq, Repr

/-- A row of the products table. -/
structure Product where
  id : Nat
  stripeId : String
  name : String
  description : Option String
  active : Bool
  type : Option String
  slug : Option String
  created : Int
  updated : Int
  metadata : Option Metadata
deriving DecidableEq, Repr

/-- A row of the prices table. -/
structure Price where
  id : Nat
  stripeId : String
  productId : Nat
  productStripeId : String
  active : Bool
  currency : String
  unitAmount : Option Int
  billingScheme : Option String
  type : String
  recurringInterval : Option String
  recurringIntervalCount : Option Int
  slug : Option String
  created : Int
  metadata : Option Metadata
deriving DecidableEq, Repr

/-- A row of the subscriptions table. -/
structure Subscription where
  id : Nat
  stripeId : String
  customerId : Nat
  customerStripeId : String
  userId : String
  status : String
  priceId : Option Nat
  priceStripeId : Option String
  productSlug : Option String
  currency : String
  currentPeriodStart : Int
  currentPeriodEnd : Int
  cancelAtPeriodEnd : Bool
  canceledAt : Option Int
  endedAt : Option Int
  trialStart : Option Int
  trialEnd : Option Int
  created : Int
  metadata : Option Metadata
deriving DecidableEq, Repr

/-- A row of the invoices table. -/
structure Invoice where
  id : Nat
  stripeId : String
  customerId : Nat
  customerStripeId : String
  userId : String
  subscriptionId : Option Nat
  subscriptionStripeId : Option String
  status : String
  currency : String
  amountDue : Int
  amountPaid : Int
  amountRemaining : Int
  subtotal : Int
  total : Int
  tax : Option Int
  invoicePdf : Option String
  hostedInvoiceUrl : Option String
  billingReason : Option String
  periodStart : Int
  periodEnd : Int
  dueDate : Option Int
  paidAt : Option Int
  created : Int
  metadata : Option Metadata
deriving DecidableEq, Repr

/-- The entity store: one list per table plus a fresh-id counter. -/
structure DB where
  customers : List Customer
  products : List Product
  prices : List Price
  subscriptions : List Subscription
  invoices : List Invoice
  nextId : Nat
deriving DecidableEq, Repr

/-- The empty store. -/
def DB.empty : DB := ⟨[], [], [], [], [], 0⟩

-- ===== INDEXED LOOKUPS (withIndex("stripeId").first() etc.) =====

/-- getCustomerByStripeId: index lookup by remote id, first match. -/
def findCustomerByStripeId (db : DB) (sid : String) : Option Customer :=
  db.customers.find? (fun c => c.stripeId == sid)

/-- getProductByStripeId. -/
def findProductByStripeId (db : DB) (sid : String) : Option Product :=
  db.products.find? (fun p => p.stripeId == sid)

/-- getPriceByStripeId. -/
def findPriceByStripeId (db : DB) (sid : String) : Option Price :=
  db.prices.find? (fun p => p.stripeId == sid)

/-- getSubscriptionByStripeId. -/
def findSubscriptionByStripeId (db : DB) (sid : String) : Option Subscription :=
  db.subscriptions.find? (fun s => s.stripeId == sid)

/-- Invoice lookup by remote id (the upsert's existence check). -/
def findInvoiceByStripeId (db : DB) (sid : String) : Option Invoice :=
  db.invoices.find? (fun i => i.stripeId == sid)

/-- getCurrentSubscription (component/lib.ts): collect the
userId_status index at (userId, "active") and return the first row or
null. -/
def getCurrentSubscription (db : DB) (userId : String) : Option Subscription :=
  (db.subscriptions.filter
    (fun s => s.userId == userId && s.status == "active")).head?

-- ===== MUTATION ARGUMENT RECORDS (validators) =====

/-- Arguments of upsertCustomer. -/
structure UpsertCustomerArgs where
  stripeId : String
  userId : String
  email : String
  name : Option String
  currency : Option String
  created : Int
  metadata : Option Metadata
deriving DecidableEq, Repr

/-- Arguments of upsertProduct. -/
structure UpsertProductArgs where
  stripeId : String
  name : String
  description : Option String
  active : Bool
  type : Option String
  slug : Option String
  created : Int
  updated : Int
  metadata : Option Metadata
deriving DecidableEq, Repr

/-- Arguments of upsertPrice. -/
structure UpsertPriceArgs where
  stripeId : String
  productId : Nat
  productStripeId : String
  active : Bool
  currency : String
  unitAmount : Option Int
  billingScheme : Option String
  type : String
  recurringInterval : Option String
  recurringIntervalCount : Option Int
  slug : Option String
  created : Int
  metadata : Option Metadata
deriving DecidableEq, Repr

/-- Arguments of upsertSubscription. -/
structure UpsertSubscriptionArgs where
  stripeId : String
  customerId : Nat
  customerStripeId : String
  userId : String
  status : String
  priceId : Option Nat
  priceStripeId : Option String
  productSlug : Option String
  currency : String
  currentPeriodStart : Int
  currentPeriodEnd : Int
  cancelAtPeriodEnd : Bool
  canceledAt : Option Int
  endedAt : Option Int
  trialStart : Option Int
  trialEnd : Option Int
  created : Int
  metadata : Option Metadata
deriving DecidableEq, Repr

/-- Arguments of upsertInvoice. -/
structure UpsertInvoiceArgs where
  stripeId : String
  customerId : Nat
  customerStripeId : String
  userId : String
  subscriptionId : Option Nat
  subscriptionStripeId : Option String
  status : String
  currency : String
  amountDue : Int
  amountPaid : Int
  amountRemaining : Int
  subtotal : Int
  total : Int
  tax : Option Int
  invoicePdf : Option String
  hostedInvoiceUrl : Option String
  billingReason : Option String
  periodStart : Int
  periodEnd : Int
  dueDate : Option Int
  paidAt : Option Int
  created : Int
  metadata : Option Metadata
deriving DecidableEq, Repr

-- ===== ROW-LEVEL WRITE LOG =====

/-- A single row-level store write, for tracking effects. -/
inductive DbWrite where
  | insert (table : String) (id : Nat)
  | patch (table : String) (id : Nat)
  | delete (table : String) (id : Nat)
deriving DecidableEq, Repr

/-- Result of an upsert mutation: new store, returned document id, and
the row writes it performed. -/
structure MutResult where
  db : DB
  id : Nat
  writes : List DbWrite
deriving Repr

/-- Result of a delete/deactivate mutation. -/
structure EffResult where
  db : DB
  writes : List DbWrite
deriving Repr

-- ===== UPSERT MUTATIONS (component/lib.ts) =====

/-- ctx.db.patch on an existing customer: the update branch of
upsertCustomer patches only email, name, currency, metadata. -/
def patchCustomer (c : Customer) (a : UpsertCustomerArgs) : Customer :=
  { c with email := a.email, name := a.name, currency := a.currency,
           metadata := a.metadata }

/-- The row inserted by upsertCustomer when no row matches. -/
def insertCustomerRow (id : Nat) (a : UpsertCustomerArgs) : Customer :=
  ⟨id, a.stripeId, a.userId, a.email, a.name, a.currency, a.created,
   a.metadata⟩

/-- upsertCustomer: look up by stripeId index; patch the mutable subset
if found, insert the full args otherwise. -/
def upsertCustomer (db : DB) (a : UpsertCustomerArgs) : MutResult :=
  match findCustomerByStripeId db a.stripeId with
  | some existing =>
      let rows := db.customers.map
        (fun c => if c.id == existing.id then patchCustomer c a else c)
      { db := { db with customers := rows },
        id := existing.id,
        writes := [DbWrite.patch "customers" existing.id] }
  | none =>
      { db := { db with
          customers := db.customers ++ [insertCustomerRow db.nextId a],
          nextId := db.nextId + 1 },
        id := db.nextId,
        writes := [DbWrite.insert "customers" db.nextId] }

/-- The update branch of upsertProduct patches name, description,
active, type, slug, updated, metadata (not created, not stripeId). -/
def patchProduct (p : Product) (a : UpsertProductArgs) : Product :=
  { p with name := a.name, description := a.description, active := a.active,
           type := a.type, slug := a.slug, updated := a.updated,
           metadata := a.metadata }

/-- The row inserted by upsertProduct. -/
def insertProductRow (id : Nat) (a : UpsertProductArgs) : Product :=
  ⟨id, a.stripeId, a.name, a.description, a.active, a.type, a.slug,
   a.created, a.updated, a.metadata⟩

/-- upsertProduct. -/
def upsertProduct (db : DB) (a : UpsertProductArgs) : MutResult :=
  match findProductByStripeId db a.stripeId with
  | some existing =>
      let rows := db.products.map
        (fun p => if p.id == existing.id then patchProduct p a else p)
      { db := { db with products := rows },
        id := existing.id,
        writes := [DbWrite.patch "products" existing.id] }
  | none =>
      { db := { db with
          products := db.products ++ [insertProductRow db.nextId a],
          nextId := db.nextId + 1 },
        id := db.nextId,
        writes := [DbWrite.insert "products" db.nextId] }

/-- The update branch of upsertPrice patches everything except
stripeId and created. -/
def patchPrice (p : Price) (a : UpsertPriceArgs) : Price :=
  { p with productId := a.productId, productStripeId := a.productStripeId,
           active := a.active, currency := a.currency,
           unitAmount := a.unitAmount, billingScheme := a.billingScheme,
           type := a.type, recurringInterval := a.recurringInterval,
           recurringIntervalCount := a.recurringIntervalCount,
           slug := a.slug, metadata := a.metadata }

/-- The row inserted by upsertPrice. -/
def insertPriceRow (id : Nat) (a : UpsertPriceArgs) : Price :=
  ⟨id, a.stripeId, a.productId, a.productStripeId, a.active, a.currency,
   a.unitAmount, a.billingScheme, a.type, a.recurringInterval,
   a.recurringIntervalCount, a.slug, a.created, a.metadata⟩

/-- upsertPrice. -/
def upsertPrice (db : DB) (a : UpsertPriceArgs) : MutResult :=
  match findPriceByStripeId db a.stripeId with
  | some existing =>
      let rows := db.prices.map
        (fun p => if p.id == existing.id then patchPrice p a else p)
      { db := { db with prices := rows },
        id := existing.id,
        writes := [DbWrite.patch "prices" existing.id] }
  | none =>
      { db := { db with
          prices := db.prices ++ [insertPriceRow db.nextId a],
          nextId := db.nextId + 1 },
        id := db.nextId,
        writes := [DbWrite.insert "prices" db.nextId] }

/-- The update branch of upsertSubscription patches all mutable fields
(not stripeId, customerId, customerStripeId, userId, created). -/
def patchSubscription (s : Subscription) (a : UpsertSubscriptionArgs) :
    Subscription :=
  { s with status := a.status, priceId := a.priceId,
           priceStripeId := a.priceStripeId, productSlug := a.productSlug,
           currency := a.currency,
           currentPeriodStart := a.currentPeriodStart,
           currentPeriodEnd := a.currentPeriodEnd,
           cancelAtPeriodEnd := a.cancelAtPeriodEnd,
           canceledAt := a.canceledAt, endedAt := a.endedAt,
           trialStart := a.trialStart, trialEnd := a.trialEnd,
           metadata := a.metadata }

/-- The row inserted by upsertSubscription. -/
def insertSubscriptionRow (id : Nat) (a : UpsertSubscriptionArgs) :
    Subscription :=
  ⟨id, a.stripeId, a.customerId, a.customerStripeId, a.userId, a.status,
   a.priceId, a.priceStripeId, a.productSlug, a.currency,
   a.currentPeriodStart, a.currentPeriodEnd, a.cancelAtPeriodEnd,
   a.canceledAt, a.endedAt, a.trialStart, a.trialEnd, a.created, a.metadata⟩

/-- upsertSubscription. -/
def upsertSubscription (db : DB) (a : UpsertSubscriptionArgs) : MutResult :=
  match findSubscriptionByStripeId db a.stripeId with
  | some existing =>
      let rows := db.subscriptions.map
        (fun s => if s.id == existing.id then patchSubscription s a else s)
      { db := { db with subscriptions := rows },
        id := existing.id,
        writes := [DbWrite.patch "subscriptions" existing.id] }
  | none =>
      { db := { db with
          subscriptions := db.subscriptions ++ [insertSubscriptionRow db.nextId a],
          nextId := db.nextId + 1 },
        id := db.nextId,
        writes := [DbWrite.insert "subscriptions" db.nextId] }

/-- deleteSubscription: remove the row matching the remote id if any. -/
def deleteSubscription (db : DB) (sid : String) : EffResult :=
  match findSubscriptionByStripeId db sid with
  | some s =>
      let rows := db.subscriptions.filter (fun x => !(x.id == s.id))
      { db := { db with subscriptions := rows },
        writes := [DbWrite.delete "subscriptions" s.id] }
  | none => { db := db, writes := [] }

/-- The update branch of upsertInvoice patches ONLY status, amountPaid,
amountRemaining, invoicePdf, hostedInvoiceUrl, paidAt, metadata — in
particular it does not touch the subscription linkage fields. -/
def patchInvoice (i : Invoice) (a : UpsertInvoiceArgs) : Invoice :=
  { i with status := a.status, amountPaid := a.amountPaid,
           amountRemaining := a.amountRemaining,
           invoicePdf := a.invoicePdf,
           hostedInvoiceUrl := a.hostedInvoiceUrl,
           paidAt := a.paidAt, metadata := a.metadata }

/-- The row inserted by upsertInvoice. -/
def insertInvoiceRow (id : Nat) (a : UpsertInvoiceArgs) : Invoice :=
  ⟨id, a.stripeId, a.customerId, a.customerStripeId, a.userId,
   a.subscriptionId, a.subscriptionStripeId, a.status, a.currency,
   a.amountDue, a.amountPaid, a.amountRemaining, a.subtotal, a.total,
   a.tax, a.invoicePdf, a.hostedInvoiceUrl, a.billingReason,
   a.periodStart, a.periodEnd, a.dueDate, a.paidAt, a.created, a.metadata⟩

/-- upsertInvoice. -/
def upsertInvoice (db : DB) (a : UpsertInvoiceArgs) : MutResult :=
  match findInvoiceByStripeId db a.stripeId with
  | some existing =>
      let rows := db.invoices.map
        (fun i => if i.id == existing.id then patchInvoice i a else i)
      { db := { db with invoices := rows },
        id := existing.id,
        writes := [DbWrite.patch "invoices" existing.id] }
  | none =>
      { db := { db with
          invoices := db.invoices ++ [insertInvoiceRow db.nextId a],
          nextId := db.nextId + 1 },
        id := db.nextId,
        writes := [DbWrite.insert "invoices" db.nextId] }

/-- deactivateProduct: patch active=false on the matching row, silent
no-op when absent. -/
def deactivateProduct (db : DB) (sid : String) : EffResult :=
  match findProductByStripeId db sid with
  | some existing =>
      let rows := db.products.map
        (fun p => if p.id == existing.id then { p with active := false } else p)
      { db := { db with products := rows },
        writes := [DbWrite.patch "products" existing.id] }
  | none => { db := db, writes := [] }

/-- deactivatePrice: patch active=false on the matching row, silent
no-op when absent. -/
def deactivatePrice (db : DB) (sid : String) : EffResult :=
  match findPriceByStripeId db sid with
  | some existing =>
      let rows := db.prices.map
        (fun p => if p.id == existing.id then { p with active := false } else p)
      { db := { db with prices := rows },
        writes := [DbWrite.patch "prices" existing.id] }
  | none => { db := db, writes := [] }

/-- deleteCustomer: remove the row matching the remote id if any. -/
def deleteCustomer (db : DB) (sid : String) : EffResult :=
  match findCustomerByStripeId db sid with
  | some c =>
      let rows := db.customers.filter (fun x => !(x.id == c.id))
      { db := { db with customers := rows },
        writes := [DbWrite.delete "customers" c.id] }
  | none => { db := db, writes := [] }

-- ===== WEBHOOK EVENT PAYLOADS (Stripe event object shapes) =====

/-- checkout.session.completed payload (only the id is used). -/
structure CheckoutObj where
  id : String
deriving DecidableEq, Repr

/-- The price carried on a subscription item. -/
structure SubItemPrice where
  id : String
deriving DecidableEq, Repr

/-- One entry of subscription.items.data. -/
structure SubItem where
  price : SubItemPrice
  current_period_start : Int
  current_period_end : Int
deriving DecidableEq, Repr

/-- A subscription object as carried by subscription events and by the
paginated subscriptions list. The customer reference is its remote id
(the string-or-object union collapses to the id). -/
structure SubEventObj where
  id : String
  customer : String
  items : List SubItem
  status : String
  currency : String
  cancel_at_period_end : Bool
  canceled_at : Option Int
  ended_at : Option Int
  trial_start : Option Int
  trial_end : Option Int
  created : Int
  metadata : Option Metadata
deriving DecidableEq, Repr

/-- invoice.parent.subscription_details: the nested subscription
reference, collapsed to its remote id when present. -/
structure SubDetails where
  subscription : Option String
deriving DecidableEq, Repr

/-- invoice.parent. -/
structure InvoiceParent where
  subscription_details : Option SubDetails
deriving DecidableEq, Repr

/-- invoice.status_transitions. -/
structure StatusTransitions where
  paid_at : Option Int
deriving DecidableEq, Repr

/-- An invoice object as carried by invoice events. -/
structure InvoiceEventObj where
  id : String
  customer : Option String
  parent : Option InvoiceParent
  status : Option String
  currency : String
  amount_due : Int
  amount_paid : Int
  amount_remaining : Int
  subtotal : Int
  total : Int
  invoice_pdf : Option String
  hosted_invoice_url : Option String
  billing_reason : Option String
  period_start : Int
  period_end : Int
  due_date : Option Int
  status_transitions : Option StatusTransitions
  created : Int
  metadata : Option Metadata
deriving DecidableEq, Repr

/-- A product object as carried by product events and the products
list. -/
structure ProductEventObj where
  id : String
  name : String
  description : Option String
  active : Bool
  type : Option String
  created : Int
  updated : Int
  metadata : Option Metadata
deriving DecidableEq, Repr

/-- price.recurring. -/
structure Recurring where
  interval : String
  interval_count : Int
deriving DecidableEq, Repr

/-- A price object as carried by price events and the prices list. -/
structure PriceEventObj where
  id : String
  product : String
  active : Bool
  currency : String
  unit_amount : Option Int
  billing_scheme : Option String
  type : String
  recurring : Option Recurring
  created : Int
  metadata : Option Metadata
deriving DecidableEq, Repr

/-- A customer object as carried by customer.updated. -/
structure CustomerEventObj where
  id : String
  email : Option String
  name : Option String
  currency : Option String
  created : Int
  metadata : Option Metadata
deriving DecidableEq, Repr

/-- The event union dispatched by handleWebhookEvent (the handled types
plus a catch-all for unhandled ones). -/
inductive StripeEvent where
  | checkoutSessionCompleted (obj : CheckoutObj)
  | customerSubscriptionCreated (obj : SubEventObj)
  | customerSubscriptionUpdated (obj : SubEventObj)
  | customerSubscriptionDeleted (obj : SubEventObj)
  | invoicePaid (obj : InvoiceEventObj)
  | invoicePaymentFailed (obj : InvoiceEventObj)
  | invoiceFinalized (obj : InvoiceEventObj)
  | productCreated (obj : ProductEventObj)
  | productUpdated (obj : ProductEventObj)
  | priceCreated (obj : PriceEventObj)
  | priceUpdated (obj : PriceEventObj)
  | unhandled (eventType : String)
deriving DecidableEq, Repr

-- ===== PER-EVENT RECONCILIATION (client/index.ts WebhookHandler) =====

/-- stripeUtils.ts extractSubscriptionPeriod: period fields live on the
first subscription item, defaulting to 0. -/
def extractSubscriptionPeriod (sub : SubEventObj) : Int × Int :=
  let firstItem := sub.items.head?
  ((firstItem.map (fun it => it.current_period_start)).getD 0,
   (firstItem.map (fun it => it.current_period_end)).getD 0)

/-- handleCheckoutComplete: a log-only placeholder, no store access. -/
def handleCheckoutComplete (db : DB) (_obj : CheckoutObj) : EffResult :=
  { db := db, writes := [] }

/-- handleSubscriptionUpdate: resolve the local customer by remote
customer id (drop the event when absent), resolve the first item price
to a local price row for priceId and productSlug, then
upsertSubscription. -/
def handleSubscriptionUpdate (db : DB) (sub : SubEventObj) : EffResult :=
  let customerStripeId := sub.customer
  match findCustomerByStripeId db customerStripeId with
  | none => { db := db, writes := [] }
  | some customer =>
    let firstItem := sub.items.head?
    let priceStripeId := firstItem.map (fun it => it.price.id)
    let pd :=
      match priceStripeId with
      | some pid => findPriceByStripeId db pid
      | none => none
    let r := upsertSubscription db
      { stripeId := sub.id, customerId := customer.id,
        customerStripeId := customerStripeId, userId := customer.userId,
        status := sub.status, priceId := pd.map (fun p => p.id),
        priceStripeId := priceStripeId,
        productSlug := pd.bind (fun p => p.slug),
        currency := sub.currency,
        currentPeriodStart :=
          (firstItem.map (fun it => it.current_period_start)).getD 0,
        currentPeriodEnd :=
          (firstItem.map (fun it => it.current_period_end)).getD 0,
        cancelAtPeriodEnd := sub.cancel_at_period_end,
        canceledAt := jsNumOrUndef sub.canceled_at,
        endedAt := jsNumOrUndef sub.ended_at,
        trialStart := jsNumOrUndef sub.trial_start,
        trialEnd := jsNumOrUndef sub.trial_end,
        created := sub.created, metadata := sub.metadata }
    { db := r.db, writes := r.writes }

/-- handleSubscriptionDelete: hard delete by remote id. -/
def handleSubscriptionDelete (db : DB) (sub : SubEventObj) : EffResult :=
  deleteSubscription db sub.id

/-- handleInvoiceEvent: resolve local customer (drop when absent),
resolve subscription linkage from invoice.parent.subscription_details
when present, then upsertInvoice. -/
def handleInvoiceEvent (db : DB) (inv : InvoiceEventObj) : EffResult :=
  let customerStripeId := inv.customer.getD ""
  match findCustomerByStripeId db customerStripeId with
  | none => { db := db, writes := [] }
  | some customer =>
    let subRef : Option String :=
      match inv.parent.bind (fun p => p.subscription_details) with
      | some det => det.subscription
      | none => none
    let subscriptionId : Option Nat :=
      match subRef with
      | some s =>
          if s == "" then none
          else (findSubscriptionByStripeId db s).map (fun x => x.id)
      | none => none
    let r := upsertInvoice db
      { stripeId := inv.id, customerId := customer.id,
        customerStripeId := customerStripeId, userId := customer.userId,
        subscriptionId := subscriptionId, subscriptionStripeId := subRef,
        status := jsStrOrD inv.status "draft", currency := inv.currency,
        amountDue := inv.amount_due, amountPaid := inv.amount_paid,
        amountRemaining := inv.amount_remaining, subtotal := inv.subtotal,
        total := inv.total, tax := none,
        invoicePdf := jsStrOrUndef inv.invoice_pdf,
        hostedInvoiceUrl := jsStrOrUndef inv.hosted_invoice_url,
        billingReason := jsStrOrUndef inv.billing_reason,
        periodStart := inv.period_start, periodEnd := inv.period_end,
        dueDate := jsNumOrUndef inv.due_date,
        paidAt := jsNumOrUndef (inv.status_transitions.bind (fun t => t.paid_at)),
        created := inv.created, metadata := inv.metadata }
    { db := r.db, writes := r.writes }

/-- handleProductUpdate: resolve the slug from the statically configured
slug-to-remote-product-id map, then upsertProduct. -/
def handleProductUpdate (cfg : List (String × String)) (db : DB)
    (product : ProductEventObj) : EffResult :=
  let slug := (cfg.find? (fun kv => kv.2 == product.id)).map (fun kv => kv.1)
  let r := upsertProduct db
    { stripeId := product.id, name := product.name,
      description := jsStrOrUndef product.description,
      active := product.active, type := jsStrOrUndef product.type,
      slug := slug, created := product.created, updated := product.updated,
      metadata := product.metadata }
  { db := r.db, writes := r.writes }

/-- handlePriceUpdate: resolve the owning local product by remote
product id (drop the event when absent), derive the price slug from the
product slug, currency and interval, then upsertPrice. -/
def handlePriceUpdate (db : DB) (price : PriceEventObj) : EffResult :=
  let productStripeId := price.product
  match findProductByStripeId db productStripeId with
  | none => { db := db, writes := [] }
  | some product =>
    let priceSlug := product.slug.map
      (fun s => s ++ "-" ++ price.currency ++ "-" ++
        jsStrOrD (price.recurring.map (fun x => x.interval)) "once")
    let r := upsertPrice db
      { stripeId := price.id, productId := product.id,
        productStripeId := productStripeId, active := price.active,
        currency := price.currency,
        unitAmount := jsNumOrUndef price.unit_amount,
        billingScheme := jsStrOrUndef price.billing_scheme,
        type := price.type,
        recurringInterval := jsStrOrUndef (price.recurring.map (fun x => x.interval)),
        recurringIntervalCount :=
          jsNumOrUndef (price.recurring.map (fun x => x.interval_count)),
        slug := priceSlug, created := price.created,
        metadata := price.metadata }
    { db := r.db, writes := r.writes }

/-- handleCustomerUpdated: resolve the application user id from the
event metadata or, failing that, from the existing local row; drop the
event when neither yields one; then upsertCustomer. -/
def handleCustomerUpdated (db : DB) (c : CustomerEventObj) : EffResult :=
  let resolvedUserId : Option String :=
    match c.metadata.bind (fun m => m.lookup "userId") with
    | some u => some u
    | none => (findCustomerByStripeId db c.id).map (fun e => e.userId)
  match resolvedUserId with
  | none => { db := db, writes := [] }
  | some userId =>
    let r := upsertCustomer db
      { stripeId := c.id, userId := userId,
        email := jsStrOrD c.email "",
        name := jsStrOrUndef c.name, currency := jsStrOrUndef c.currency,
        created := c.created, metadata := c.metadata }
    { db := r.db, writes := r.writes }

-- ===== WEBHOOK DISPATCH, CALLBACKS, AND HTTP ROUTE =====

/-- One step of the request's observable effect trace: a row-level store
write or a caller-supplied callback invocation. -/
inductive TraceEntry where
  | write (w : DbWrite)
  | callback (name : String)
deriving DecidableEq, Repr

/-- Whether a trace entry is a store write. -/
def TraceEntry.isWrite : TraceEntry → Bool
  | .write _ => true
  | .callback _ => false

/-- Whether a trace entry is a callback invocation. -/
def TraceEntry.isCallback : TraceEntry → Bool
  | .write _ => false
  | .callback _ => true

/-- Which optional caller-supplied callbacks are configured. -/
structure Callbacks where
  onCheckoutComplete : Bool
  onSubscriptionCreated : Bool
  onSubscriptionUpdated : Bool
  onSubscriptionDeleted : Bool
  onInvoicePaid : Bool
  onInvoiceFailed : Bool
deriving DecidableEq, Repr

/-- The trace of invoking an optional callback when it is configured. -/
def cbTrace (configured : Bool) (name : String) : List TraceEntry :=
  if configured then [TraceEntry.callback name] else []

/-- handleWebhookEvent: dispatch on the event type; run the per-type
reconciliation handler, then the matching configured callback; unknown
event types are ignored. -/
def handleWebhookEvent (cfg : List (String × String)) (db : DB)
    (event : StripeEvent) (cbs : Callbacks) : DB × List TraceEntry :=
  match event with
  | .checkoutSessionCompleted obj =>
      let r := handleCheckoutComplete db obj
      (r.db, r.writes.map TraceEntry.write ++
        cbTrace cbs.onCheckoutComplete "onCheckoutComplete")
  | .customerSubscriptionCreated obj =>
      let r := handleSubscriptionUpdate db obj
      (r.db, r.writes.map TraceEntry.write ++
        cbTrace cbs.onSubscriptionCreated "onSubscriptionCreated")
  | .customerSubscriptionUpdated obj =>
      let r := handleSubscriptionUpdate db obj
      (r.db, r.writes.map TraceEntry.write ++
        cbTrace cbs.onSubscriptionUpdated "onSubscriptionUpdated")
  | .customerSubscriptionDeleted obj =>
      let r := handleSubscriptionDelete db obj
      (r.db, r.writes.map TraceEntry.write ++
        cbTrace cbs.onSubscriptionDeleted "onSubscriptionDeleted")
  | .invoicePaid obj =>
      let r := handleInvoiceEvent db obj
      (r.db, r.writes.map TraceEntry.write ++
        cbTrace cbs.onInvoicePaid "onInvoicePaid")
  | .invoicePaymentFailed obj =>
      let r := handleInvoiceEvent db obj
      (r.db, r.writes.map TraceEntry.write ++
        cbTrace cbs.onInvoiceFailed "onInvoiceFailed")
  | .invoiceFinalized obj =>
      let r := handleInvoiceEvent db obj
      (r.db, r.writes.map TraceEntry.write)
  | .productCreated obj =>
      let r := handleProductUpdate cfg db obj
      (r.db, r.writes.map TraceEntry.write)
  | .productUpdated obj =>
      let r := handleProductUpdate cfg db obj
      (r.db, r.writes.map TraceEntry.write)
  | .priceCreated obj =>
      let r := handlePriceUpdate db obj
      (r.db, r.writes.map TraceEntry.write)
  | .priceUpdated obj =>
      let r := handlePriceUpdate db obj
      (r.db, r.writes.map TraceEntry.write)
  | .unhandled _ => (db, [])

/-- The incoming webhook request: raw body bytes and the
stripe-signature header if present. -/
structure WebhookRequest where
  body : String
  signature : Option String
deriving DecidableEq, Repr

/-- A bare HTTP response. -/
structure HttpResponse where
  status : Nat
  body : String
deriving DecidableEq, Repr

/-- The observable outcome of one webhook request. -/
structure RouteResult where
  response : HttpResponse
  db : DB
  trace : List TraceEntry
deriving Repr

/-- stripe.webhooks.constructEvent at the interface boundary: the
provider signing scheme is a MAC over the exact raw body with the
pre-shared secret; verification succeeds exactly when the presented
signature equals that MAC, and the event is parsed from the body. -/
def constructEvent (mac : String → String → String)
    (parse : String → StripeEvent) (secret body sig : String) :
    Option StripeEvent :=
  if sig == mac secret body then some (parse body) else none

/-- registerRoutes POST handler: read the body, reject with 400 when the
signature header is missing, 403 when verification fails, otherwise
dispatch the parsed event and answer 200. (The 500 branch guards
handler exceptions, which the pure model cannot raise.) -/
def webhookRoute (mac : String → String → String)
    (parse : String → StripeEvent) (secret : String)
    (cfg : List (String × String)) (cbs : Callbacks) (db : DB)
    (req : WebhookRequest) : RouteResult :=
  match req.signature with
  | none => ⟨⟨400, "Missing signature"⟩, db, []⟩
  | some sig =>
    match constructEvent mac parse secret req.body sig with
    | none => ⟨⟨403, "Invalid signature"⟩, db, []⟩
    | some event =>
      let r := handleWebhookEvent cfg db event cbs
      ⟨⟨200, "OK"⟩, r.1, r.2⟩

-- ===== BACKFILL SYNC (client SubscriptionMethods / ProductMethods) =====

/-- One page returned by the paginated subscriptions list. -/
structure SubPage where
  data : List SubEventObj
  has_more : Bool
deriving DecidableEq, Repr

/-- The body of the per-subscription loop of syncSubscriptions: skip
when the remote customer has no local row, skip when the subscription
has no first-item price, otherwise resolve the local price row and
upsert. -/
def syncSubscriptionItem (db : DB) (sub : SubEventObj) : EffResult :=
  match findCustomerByStripeId db sub.customer with
  | none => { db := db, writes := [] }
  | some customer =>
    match (sub.items.head?).map (fun it => it.price) with
    | none => { db := db, writes := [] }
    | some price =>
      let priceDoc := findPriceByStripeId db price.id
      let productSlug := (priceDoc.bind (fun p => p.slug)).map
        (fun sl => (sl.splitOn "-").headD "")
      let period := extractSubscriptionPeriod sub
      let r := upsertSubscription db
        { stripeId := sub.id, customerId := customer.id,
          customerStripeId := sub.customer, userId := customer.userId,
          status := sub.status, priceId := priceDoc.map (fun p => p.id),
          priceStripeId := some price.id, productSlug := productSlug,
          currency := sub.currency,
          currentPeriodStart := period.1, currentPeriodEnd := period.2,
          cancelAtPeriodEnd := sub.cancel_at_period_end,
          canceledAt := jsNumOrUndef sub.canceled_at,
          endedAt := jsNumOrUndef sub.ended_at,
          trialStart := jsNumOrUndef sub.trial_start,
          trialEnd := jsNumOrUndef sub.trial_end,
          created := sub.created, metadata := extractMetadata sub.metadata }
      { db := r.db, writes := r.writes }

/-- The for-loop of syncSubscriptions over one page's items. -/
def syncSubscriptionsPage : DB → List SubEventObj → DB × List DbWrite
  | db, [] => (db, [])
  | db, sub :: rest =>
    let r := syncSubscriptionItem db sub
    let rr := syncSubscriptionsPage r.db rest
    (rr.1, r.writes ++ rr.2)

/-- The while(hasMore) pagination loop of syncSubscriptions, with fuel
so the (source-side unbounded) loop is total; returns the final store,
the items visited by the for loop in order, and the writes. The cursor
advances to the last item's id when the page is non-empty. -/
def syncSubscriptionsLoop (pages : Option String → SubPage) :
    Nat → DB → Option String → Option (DB × List SubEventObj × List DbWrite)
  | 0, _, _ => none
  | Nat.succ fuel, db, startingAfter =>
    let page := pages startingAfter
    let r := syncSubscriptionsPage db page.data
    if page.has_more then
      let cursor := if page.data.length > 0
        then (page.data.getLast?).map (fun s => s.id) else startingAfter
      match syncSubscriptionsLoop pages fuel r.1 cursor with
      | none => none
      | some (db2, visited, ws) => some (db2, page.data ++ visited, r.2 ++ ws)
    else
      some (r.1, page.data, r.2)

/-- syncSubscriptions starts the pagination loop with no cursor. -/
def syncSubscriptions (pages : Option String → SubPage) (fuel : Nat)
    (db : DB) : Option (DB × List SubEventObj × List DbWrite) :=
  syncSubscriptionsLoop pages fuel db none

/-- The chain of pages the loop will fetch: follow has_more and the
last-item cursor until a page reports no continuation, within fuel. -/
def subPageChain (pages : Option String → SubPage) :
    Nat → Option String → Option (List SubPage)
  | 0, _ => none
  | Nat.succ fuel, cursor =>
    let page := pages cursor
    if page.has_more then
      let c2 := if page.data.length > 0
        then (page.data.getLast?).map (fun s => s.id) else cursor
      match subPageChain pages fuel c2 with
      | none => none
      | some rest => some (page :: rest)
    else
      some [page]

/-- One page returned by the products list. -/
structure ProdPage where
  data : List ProductEventObj
  has_more : Bool
deriving DecidableEq, Repr

/-- One page returned by the per-product prices list. -/
structure PricePage where
  data : List PriceEventObj
  has_more : Bool
deriving DecidableEq, Repr

/-- The inner price loop of syncProducts: upsert each listed price of a
product, deriving the price slug from the product slug. -/
def syncProductPrices (productId : Nat) (productStripeId : String)
    (slug : Option String) : DB → List PriceEventObj → DB × List DbWrite
  | db, [] => (db, [])
  | db, price :: rest =>
    let priceSlug := slug.map
      (fun s => s ++ "-" ++ price.currency ++ "-" ++
        jsStrOrD (price.recurring.map (fun x => x.interval)) "once")
    let r := upsertPrice db
      { stripeId := price.id, productId := productId,
        productStripeId := productStripeId, active := price.active,
        currency := price.currency,
        unitAmount := jsNumOrUndef price.unit_amount,
        billingScheme := jsStrOrUndef price.billing_scheme,
        type := price.type,
        recurringInterval := jsStrOrUndef (price.recurring.map (fun x => x.interval)),
        recurringIntervalCount :=
          jsNumOrUndef (price.recurring.map (fun x => x.interval_count)),
        slug := priceSlug, created := price.created,
        metadata := price.metadata }
    let rr := syncProductPrices productId productStripeId slug r.db rest
    (rr.1, r.writes ++ rr.2)

/-- The product loop of syncProducts: upsert the product with its
configured slug, then list and upsert its prices (one list call each,
limit 100). The JS falsy check on the returned id never fires, a Convex
id being a non-empty string. -/
def syncProductsList (cfg : List (String × String))
    (prices : String → PricePage) : DB → List ProductEventObj → DB × List DbWrite
  | db, [] => (db, [])
  | db, product :: rest =>
    let slug := (cfg.find? (fun kv => kv.2 == product.id)).map (fun kv => kv.1)
    let r := upsertProduct db
      { stripeId := product.id, name := product.name,
        description := jsStrOrUndef product.description,
        active := product.active, type := jsStrOrUndef product.type,
        slug := slug, created := product.created,
        updated := product.updated, metadata := product.metadata }
    let pricesPage := prices product.id
    let r2 := syncProductPrices r.id product.id slug r.db pricesPage.data
    let rr := syncProductsList cfg prices r2.1 rest
    (rr.1, r.writes ++ r2.2 ++ rr.2)

/-- syncProducts: a single products.list call (active, limit 100) with
no cursor and no continuation handling; the visited products are the
first page's items only. -/
def syncProducts (productPages : Option String → ProdPage)
    (prices : String → PricePage) (cfg : List (String × String)) (db : DB) :
    DB × List ProductEventObj × List DbWrite :=
  let page := productPages none
  let r := syncProductsList cfg prices db page.data
  (r.1, page.data, r.2)

-- ===== SHARED LEMMAS =====

/-- find? over a mapped list tracks the original hit when the mapping
function preserves the predicate. -/
theorem find?_map_of_pred_inv {α : Type} {p : α → Bool} {f : α → α}
    (hf : ∀ a, p (f a) = p a) :
    ∀ {l : List α} {e : α}, l.find? p = some e → (l.map f).find? p = some (f e) := by
  intro l
  induction l with
  | nil => intro e h; simp [List.find?] at h
  | cons a as ih =>
    intro e h
    by_cases hp : p a = true
    · rw [List.find?_cons_of_pos as hp] at h
      injection h with h
      subst h
      simp only [List.map_cons]
      exact List.find?_cons_of_pos _ (by rw [hf]; exact hp)
    · rw [List.find?_cons_of_neg as hp] at h
      simp only [List.map_cons]
      rw [List.find?_cons_of_neg _ (by rw [hf]; exact hp)]
      exact ih h

/-- The existing-row branch of upsertCustomer leaves the matched row
findable as its patched version. -/
theorem upsertCustomer_find_patch (db : DB) (a : UpsertCustomerArgs)
    (sid : String) (hsid : a.stripeId = sid) (c : Customer)
    (h : findCustomerByStripeId db sid = some c) :
    findCustomerByStripeId (upsertCustomer db a).db sid =
      some (patchCustomer c a) := by
  subst hsid
  unfold upsertCustomer
  rw [h]
  show (db.customers.map _).find? _ = _
  have hstep := find?_map_of_pred_inv
    (p := fun q : Customer => q.stripeId == a.stripeId)
    (f := fun q => if q.id == c.id then patchCustomer q a else q)
    (by intro q; by_cases hq : q.id == c.id <;> simp [hq, patchCustomer]) h
  simpa using hstep

-- ===== CLAIM C7 =====

/-- C7: getCurrentSubscription returns a subscription only when its
status is exactly "active" (and it belongs to the queried user), and
when the user has no subscription with status "active" it returns null
rather than raising. -/
theorem getCurrentSubscription_active_only :
    (∀ (db : DB) (u : String) (s : Subscription),
        getCurrentSubscription db u = some s →
        s.status = "active" ∧ s.userId = u) ∧
    (∀ (db : DB) (u : String),
        (∀ s ∈ db.subscriptions, ¬(s.userId = u ∧ s.status = "active")) →
        getCurrentSubscription db u = none) := by
  constructor
  · intro db u s h
    unfold getCurrentSubscription at h
    cases hf : db.subscriptions.filter
        (fun x => x.userId == u && x.status == "active") with
    | nil => rw [hf] at h; simp at h
    | cons x t =>
      rw [hf] at h
      simp only [List.head?, Option.some.injEq] at h
      have hx : x ∈ db.subscriptions.filter
          (fun x => x.userId == u && x.status == "active") := by
        rw [hf]; exact List.mem_cons_self _ _
      have hpred := (List.mem_filter.mp hx).2
      simp only [Bool.and_eq_true, beq_iff_eq] at hpred
      rw [← h]
      exact ⟨hpred.2, hpred.1⟩
  · intro db u h
    unfold getCurrentSubscription
    have hf : db.subscriptions.filter
        (fun x => x.userId == u && x.status == "active") = [] := by
      rw [List.filter_eq_nil_iff]
      intro s hs
      have := h s hs
      simp only [Bool.and_eq_true, beq_iff_eq]
      intro hcon
      exact this ⟨hcon.1, hcon.2⟩
    rw [hf]
    rfl

/-- A user with one active and one canceled subscription. -/
def c7db : DB :=
  { customers := [⟨0, "cus_1", "u1", "a@b.c", none, none, 1, none⟩],
    products := [], prices := [],
    subscriptions :=
      [⟨1, "sub_live", 0, "cus_1", "u1", "active", none, none, none, "usd",
        0, 0, false, none, none, none, none, 5, none⟩,
       ⟨2, "sub_old", 0, "cus_1", "u1", "canceled", none, none, none, "usd",
        0, 0, false, some 3, some 3, none, none, 4, none⟩],
    invoices := [], nextId := 3 }

/-- The active subscription of c7db. -/
def c7active : Subscription :=
  ⟨1, "sub_live", 0, "cus_1", "u1", "active", none, none, none, "usd",
   0, 0, false, none, none, none, none, 5, none⟩

/-- A store whose only subscription for u1 is canceled. -/
def c7dbNoActive : DB :=
  { customers := [], products := [], prices := [],
    subscriptions :=
      [⟨2, "sub_old", 0, "cus_1", "u1", "canceled", none, none, none, "usd",
        0, 0, false, some 3, some 3, none, none, 4, none⟩],
    invoices := [], nextId := 3 }

/-- Witness for C7: the active-plus-canceled user gets the active
subscription; the user with zero active subscriptions gets null. -/
theorem getCurrentSubscription_active_only_witness :
    (getCurrentSubscription c7db "u1" = some c7active ∧
      c7active.status = "active" ∧ c7active.userId = "u1") ∧
    getCurrentSubscription c7dbNoActive "u1" = none :=
  ⟨⟨by decide,
    getCurrentSubscription_active_only.1 c7db "u1" c7active (by decide)⟩,
   getCurrentSubscription_active_only.2 c7dbNoActive "u1" (by decide)⟩

-- ===== CLAIM C9 =====

/-- C9: deactivateProduct on an existing remote id patches only the
active flag of the matched row (every row is either untouched or has
exactly its active flag cleared, the matched row stays findable with
all other fields intact, and no row is added); on a missing remote id
it is a silent no-op returning the store unchanged with no writes. -/
theorem deactivateProduct_frame :
    (∀ (db : DB) (sid : String) (p : Product),
        findProductByStripeId db sid = some p →
        (deactivateProduct db sid).db.products =
          db.products.map
            (fun q => if q.id == p.id then { q with active := false } else q) ∧
        findProductByStripeId (deactivateProduct db sid).db sid =
          some { p with active := false } ∧
        (deactivateProduct db sid).db.products.length = db.products.length ∧
        (deactivateProduct db sid).db.customers = db.customers ∧
        (deactivateProduct db sid).db.prices = db.prices ∧
        (deactivateProduct db sid).db.subscriptions = db.subscriptions ∧
        (deactivateProduct db sid).db.invoices = db.invoices) ∧
    (∀ (db : DB) (sid : String),
        findProductByStripeId db sid = none →
        deactivateProduct db sid = { db := db, writes := [] }) := by
  constructor
  · intro db sid p h
    have hfind : findProductByStripeId (deactivateProduct db sid).db sid =
        some { p with active := false } := by
      unfold deactivateProduct
      rw [h]
      show (db.products.map _).find? _ = _
      have hstep := find?_map_of_pred_inv
        (p := fun q : Product => q.stripeId == sid)
        (f := fun q => if q.id == p.id then { q with active := false } else q)
        (by intro q; by_cases hq : q.id == p.id <;> simp [hq]) h
      simpa using hstep
    refine ⟨?_, hfind, ?_, ?_, ?_, ?_, ?_⟩ <;>
      simp [deactivateProduct, h]
  · intro db sid h
    simp [deactivateProduct, h]

/-- A store holding one product. -/
def c9db : DB :=
  { customers := [], products :=
      [⟨0, "prod_1", "Pro", some "plan", true, some "service", some "pro",
        10, 20, none⟩],
    prices := [], subscriptions := [], invoices := [], nextId := 1 }

/-- The product of c9db. -/
def c9prod : Product :=
  ⟨0, "prod_1", "Pro", some "plan", true, some "service", some "pro",
   10, 20, none⟩

/-- Witness for C9: deactivating prod_1 keeps every field except active,
and deactivating a missing id is a no-op. -/
theorem deactivateProduct_frame_witness :
    findProductByStripeId (deactivateProduct c9db "prod_1").db "prod_1" =
      some { c9prod with active := false } ∧
    deactivateProduct c9db "prod_missing" = { db := c9db, writes := [] } :=
  ⟨(deactivateProduct_frame.1 c9db "prod_1" c9prod (by decide)).2.1,
   deactivateProduct_frame.2 c9db "prod_missing" (by decide)⟩

-- ===== CLAIM C8 =====

/-- C8: upsertProduct on an existing remote id patches only the mutable
fields (name, description, active, type, slug, updated, metadata): the
matched row keeps its created timestamp, stripe id and local id, every
other row is untouched, and no row is added. -/
theorem upsertProduct_preserves_created (db : DB) (a : UpsertProductArgs)
    (p : Product) (h : findProductByStripeId db a.stripeId = some p) :
    (upsertProduct db a).db.products =
      db.products.map (fun q => if q.id == p.id then patchProduct q a else q) ∧
    findProductByStripeId (upsertProduct db a).db a.stripeId =
      some (patchProduct p a) ∧
    (patchProduct p a).created = p.created ∧
    (patchProduct p a).stripeId = p.stripeId ∧
    (patchProduct p a).id = p.id ∧
    (patchProduct p a).name = a.name ∧
    (patchProduct p a).description = a.description ∧
    (patchProduct p a).active = a.active ∧
    (patchProduct p a).type = a.type ∧
    (patchProduct p a).slug = a.slug ∧
    (patchProduct p a).updated = a.updated ∧
    (patchProduct p a).metadata = a.metadata ∧
    (upsertProduct db a).db.products.length = db.products.length := by
  have hfind : findProductByStripeId (upsertProduct db a).db a.stripeId =
      some (patchProduct p a) := by
    unfold upsertProduct
    rw [h]
    show (db.products.map _).find? _ = _
    have hstep := find?_map_of_pred_inv
      (p := fun q : Product => q.stripeId == a.stripeId)
      (f := fun q => if q.id == p.id then patchProduct q a else q)
      (by intro q; by_cases hq : q.id == p.id <;> simp [hq, patchProduct]) h
    simpa using hstep
  refine ⟨?_, hfind, ?_, ?_, ?_, ?_, ?_, ?_, ?_, ?_, ?_, ?_, ?_⟩ <;>
    simp [upsertProduct, h, patchProduct]

/-- A store holding one product to overwrite. -/
def c8db : DB :=
  { customers := [], products :=
      [⟨0, "prod_1", "Pro", none, true, none, some "pro", 10, 20, none⟩],
    prices := [], subscriptions := [], invoices := [], nextId := 1 }

/-- The stored product of c8db. -/
def c8prod : Product :=
  ⟨0, "prod_1", "Pro", none, true, none, some "pro", 10, 20, none⟩

/-- Overwrite arguments: changed name, active flag and created value. -/
def c8args : UpsertProductArgs :=
  ⟨"prod_1", "Pro v2", none, false, none, some "pro", 999, 30, none⟩

/-- Witness for C8: the overwrite updates name and active but the
stored created stays 10 even though the arguments carry 999. -/
theorem upsertProduct_preserves_created_witness :
    findProductByStripeId (upsertProduct c8db c8args).db "prod_1" =
      some (patchProduct c8prod c8args) ∧
    (patchProduct c8prod c8args).created = 10 ∧
    (patchProduct c8prod c8args).name = "Pro v2" ∧
    (patchProduct c8prod c8args).active = false :=
  ⟨(upsertProduct_preserves_created c8db c8args c8prod (by decide)).2.1,
   by decide, by decide, by decide⟩

-- ===== CLAIM C10 =====

/-- C10: the update branch of upsertCustomer patches only email, name,
currency and metadata, so an upsert with the same remote id but a
different userId or created leaves the stored userId and created
unchanged; the customer.updated webhook path, which funnels into the
same upsert, therefore also never changes the stored user
association. -/
theorem upsertCustomer_preserves_userId :
    (∀ (db : DB) (a : UpsertCustomerArgs) (c : Customer),
        findCustomerByStripeId db a.stripeId = some c →
        findCustomerByStripeId (upsertCustomer db a).db a.stripeId =
          some (patchCustomer c a) ∧
        (patchCustomer c a).userId = c.userId ∧
        (patchCustomer c a).created = c.created ∧
        (patchCustomer c a).email = a.email ∧
        (patchCustomer c a).name = a.name ∧
        (patchCustomer c a).currency = a.currency ∧
        (patchCustomer c a).metadata = a.metadata) ∧
    (∀ (db : DB) (ev : CustomerEventObj) (c : Customer),
        findCustomerByStripeId db ev.id = some c →
        (findCustomerByStripeId (handleCustomerUpdated db ev).db ev.id).map
            (fun x => (x.userId, x.created)) =
          some (c.userId, c.created)) := by
  constructor
  · intro db a c h
    exact ⟨upsertCustomer_find_patch db a a.stripeId rfl c h,
      rfl, rfl, rfl, rfl, rfl, rfl⟩
  · intro db ev c h
    unfold handleCustomerUpdated
    cases hm : ev.metadata.bind (fun m => m.lookup "userId") with
    | some u =>
      simp only [hm]
      rw [upsertCustomer_find_patch db
        { stripeId := ev.id, userId := u, email := jsStrOrD ev.email "",
          name := jsStrOrUndef ev.name, currency := jsStrOrUndef ev.currency,
          created := ev.created, metadata := ev.metadata } ev.id rfl c h]
      rfl
    | none =>
      simp only [hm, h, Option.map_some']
      rw [upsertCustomer_find_patch db
        { stripeId := ev.id, userId := c.userId, email := jsStrOrD ev.email "",
          name := jsStrOrUndef ev.name, currency := jsStrOrUndef ev.currency,
          created := ev.created, metadata := ev.metadata } ev.id rfl c h]
      rfl

/-- A store holding one customer for user u1. -/
def c10db : DB :=
  { customers := [⟨0, "cus_1", "u1", "a@b.c", none, none, 7, none⟩],
    products := [], prices := [], subscriptions := [], invoices := [],
    nextId := 1 }

/-- The stored customer of c10db. -/
def c10cust : Customer := ⟨0, "cus_1", "u1", "a@b.c", none, none, 7, none⟩

/-- Upsert arguments carrying a different userId and created. -/
def c10args : UpsertCustomerArgs :=
  ⟨"cus_1", "attacker", "x@y.z", none, none, 999, none⟩

/-- A customer.updated event whose metadata tries to move the customer
to another user. -/
def c10ev : CustomerEventObj :=
  ⟨"cus_1", some "x@y.z", none, none, 999, some [("userId", "attacker")]⟩

/-- Witness for C10: after an upsert with userId "attacker" and
created 999, and after the customer.updated path with the same payload,
the stored row still carries userId "u1" and created 7. -/
theorem upsertCustomer_preserves_userId_witness :
    ((patchCustomer c10cust c10args).userId = "u1" ∧
      (patchCustomer c10cust c10args).created = 7) ∧
    (findCustomerByStripeId (handleCustomerUpdated c10db c10ev).db "cus_1").map
        (fun x => (x.userId, x.created)) = some ("u1", 7) :=
  ⟨⟨(upsertCustomer_preserves_userId.1 c10db c10args c10cust (by decide)).2.1,
    (upsertCustomer_preserves_userId.1 c10db c10args c10cust (by decide)).2.2.1⟩,
   upsertCustomer_preserves_userId.2 c10db c10ev c10cust (by decide)⟩

-- ===== CLAIM C1 =====

/-- C1: the webhook route rejects a request with no signature header
with status 400 and a request whose signature fails MAC verification
against the pre-shared secret with status 403 — in particular a request
whose body was tampered with while the signature was computed over the
original body — and in every rejection case the store is returned
unchanged with an empty effect trace, so no store write precedes the
rejection. -/
theorem webhookRoute_rejects :
    (∀ (mac : String → String → String) (parse : String → StripeEvent)
        (secret : String) (cfg : List (String × String)) (cbs : Callbacks)
        (db : DB) (body : String),
        webhookRoute mac parse secret cfg cbs db ⟨body, none⟩ =
          ⟨⟨400, "Missing signature"⟩, db, []⟩) ∧
    (∀ (mac : String → String → String) (parse : String → StripeEvent)
        (secret : String) (cfg : List (String × String)) (cbs : Callbacks)
        (db : DB) (body sig : String), sig ≠ mac secret body →
        webhookRoute mac parse secret cfg cbs db ⟨body, some sig⟩ =
          ⟨⟨403, "Invalid signature"⟩, db, []⟩) ∧
    (∀ (mac : String → String → String) (parse : String → StripeEvent)
        (secret : String) (cfg : List (String × String)) (cbs : Callbacks)
        (db : DB) (origBody tamperedBody : String),
        mac secret tamperedBody ≠ mac secret origBody →
        webhookRoute mac parse secret cfg cbs db
            ⟨tamperedBody, some (mac secret origBody)⟩ =
          ⟨⟨403, "Invalid signature"⟩, db, []⟩) := by
  refine ⟨fun mac parse secret cfg cbs db body => rfl, ?_, ?_⟩
  · intro mac parse secret cfg cbs db body sig hne
    simp only [webhookRoute, constructEvent]
    rw [if_neg (by simpa using hne)]
  · intro mac parse secret cfg cbs db origBody tamperedBody hne
    simp only [webhookRoute, constructEvent]
    rw [if_neg (by simpa using hne.symm)]

/-- A toy MAC for the witness: concatenation of secret and body. -/
def c1mac (secret body : String) : String := secret ++ ":" ++ body

/-- A parser for the witness that never recognises an event. -/
def c1parse (body : String) : StripeEvent := StripeEvent.unhandled body

/-- All callbacks configured, for the witness. -/
def c1cbs : Callbacks := ⟨true, true, true, true, true, true⟩

/-- Witness for C1: a missing header yields 400, a wrong signature
yields 403, and a tampered body presented with the original body's MAC
yields 403 — each with the store unchanged and no writes. -/
theorem webhookRoute_rejects_witness :
    webhookRoute c1mac c1parse "sec" [] c1cbs DB.empty ⟨"evt", none⟩ =
      ⟨⟨400, "Missing signature"⟩, DB.empty, []⟩ ∧
    webhookRoute c1mac c1parse "sec" [] c1cbs DB.empty ⟨"evt", some "bad"⟩ =
      ⟨⟨403, "Invalid signature"⟩, DB.empty, []⟩ ∧
    webhookRoute c1mac c1parse "sec" [] c1cbs DB.empty
        ⟨"evt2", some (c1mac "sec" "evt")⟩ =
      ⟨⟨403, "Invalid signature"⟩, DB.empty, []⟩ :=
  ⟨webhookRoute_rejects.1 c1mac c1parse "sec" [] c1cbs DB.empty "evt",
   webhookRoute_rejects.2.1 c1mac c1parse "sec" [] c1cbs DB.empty "evt" "bad"
     (by decide),
   webhookRoute_rejects.2.2 c1mac c1parse "sec" [] c1cbs DB.empty "evt" "evt2"
     (by decide)⟩

-- ===== CLAIM C2 =====

/-- patchCustomer is idempotent in its arguments. -/
theorem patchCustomer_idem (c : Customer) (a : UpsertCustomerArgs) :
    patchCustomer (patchCustomer c a) a = patchCustomer c a := rfl

/-- Patching a row freshly inserted from the same arguments changes
nothing. -/
theorem patchCustomer_insertRow (i : Nat) (a : UpsertCustomerArgs) :
    patchCustomer (insertCustomerRow i a) a = insertCustomerRow i a := rfl

/-- The store shape produced by the update branch of upsertCustomer. -/
theorem upsertCustomer_db_patch (db : DB) (a : UpsertCustomerArgs)
    (c : Customer) (h : findCustomerByStripeId db a.stripeId = some c) :
    (upsertCustomer db a).db =
      ⟨db.customers.map (fun x =>
          if x.id == c.id then patchCustomer x a else x),
       db.products, db.prices, db.subscriptions, db.invoices, db.nextId⟩ := by
  unfold upsertCustomer
  rw [h]

/-- The store shape produced by the insert branch of upsertCustomer. -/
theorem upsertCustomer_db_insert (db : DB) (a : UpsertCustomerArgs)
    (h : findCustomerByStripeId db a.stripeId = none) :
    (upsertCustomer db a).db =
      ⟨db.customers ++ [insertCustomerRow db.nextId a],
       db.products, db.prices, db.subscriptions, db.invoices,
       db.nextId + 1⟩ := by
  unfold upsertCustomer
  rw [h]

/-- C2 (amended): in any store whose ids are below the freshness
counter and which holds at most one customer row for the given remote
id, calling upsertCustomer twice with identical arguments leaves
exactly one row for that remote id, and the second call returns the
store of the first call completely unchanged. -/
theorem upsertCustomer_idempotent (db : DB) (a : UpsertCustomerArgs)
    (hfresh : ∀ c ∈ db.customers, c.id < db.nextId)
    (huniq : (db.customers.filter (fun c => c.stripeId == a.stripeId)).length ≤ 1) :
    ((upsertCustomer (upsertCustomer db a).db a).db.customers.filter
        (fun c => c.stripeId == a.stripeId)).length = 1 ∧
    (upsertCustomer (upsertCustomer db a).db a).db = (upsertCustomer db a).db := by
  cases h : findCustomerByStripeId db a.stripeId with
  | some e =>
    have h1 : findCustomerByStripeId (upsertCustomer db a).db a.stripeId =
        some (patchCustomer e a) :=
      upsertCustomer_find_patch db a a.stripeId rfl e h
    have hdb1 := upsertCustomer_db_patch db a e h
    have hc1 : (upsertCustomer db a).db.customers =
        db.customers.map (fun x =>
          if x.id == e.id then patchCustomer x a else x) := by
      rw [hdb1]
    have hdb2 := upsertCustomer_db_patch (upsertCustomer db a).db a
      (patchCustomer e a) h1
    rw [show (patchCustomer e a).id = e.id from rfl] at hdb2
    have hmapidem : (db.customers.map (fun x =>
          if x.id == e.id then patchCustomer x a else x)).map (fun x =>
          if x.id == e.id then patchCustomer x a else x) =
        db.customers.map (fun x =>
          if x.id == e.id then patchCustomer x a else x) := by
      rw [List.map_map]
      refine List.map_congr_left ?_
      intro c _
      by_cases hc : (c.id == e.id) = true
      · simp [Function.comp, hc, patchCustomer]
      · simp [Function.comp, hc]
    have hsame : (upsertCustomer (upsertCustomer db a).db a).db =
        (upsertCustomer db a).db := by
      rw [hdb2, hc1, hmapidem, ← hc1]
    refine ⟨?_, hsame⟩
    rw [hsame, hc1]
    rw [← List.countP_eq_length_filter, List.countP_map]
    have hcnt : (db.customers.countP
        ((fun c : Customer => c.stripeId == a.stripeId) ∘
          (fun c => if c.id == e.id then patchCustomer c a else c))) =
        db.customers.countP (fun c => c.stripeId == a.stripeId) := by
      refine List.countP_congr ?_
      intro c _
      by_cases hc : (c.id == e.id) = true
      · simp [Function.comp, hc, patchCustomer]
      · simp [Function.comp, hc]
    rw [hcnt, List.countP_eq_length_filter]
    have hfind : db.customers.find? (fun c => c.stripeId == a.stripeId) =
        some e := h
    have hpe := List.find?_some hfind
    have hmem : e ∈ db.customers.filter (fun c => c.stripeId == a.stripeId) :=
      List.mem_filter.mpr ⟨List.mem_of_find?_eq_some hfind, hpe⟩
    have hge : 1 ≤ (db.customers.filter
        (fun c => c.stripeId == a.stripeId)).length :=
      List.length_pos_of_mem hmem
    exact Nat.le_antisymm huniq hge
  | none =>
    have hall : ∀ c ∈ db.customers, ¬(c.stripeId == a.stripeId) = true :=
      List.find?_eq_none.mp h
    have hdb1 := upsertCustomer_db_insert db a h
    have hc1 : (upsertCustomer db a).db.customers =
        db.customers ++ [insertCustomerRow db.nextId a] := by
      rw [hdb1]
    have h1 : findCustomerByStripeId (upsertCustomer db a).db a.stripeId =
        some (insertCustomerRow db.nextId a) := by
      show (upsertCustomer db a).db.customers.find? _ = _
      rw [hc1, List.find?_append]
      have hfn : db.customers.find? (fun c => c.stripeId == a.stripeId) = none := h
      rw [hfn]
      simp [insertCustomerRow, List.find?]
    have hdb2 := upsertCustomer_db_patch (upsertCustomer db a).db a
      (insertCustomerRow db.nextId a) h1
    rw [show (insertCustomerRow db.nextId a).id = db.nextId from rfl] at hdb2
    have hmapid : (db.customers ++ [insertCustomerRow db.nextId a]).map
        (fun x => if x.id == db.nextId then patchCustomer x a else x) =
        db.customers ++ [insertCustomerRow db.nextId a] := by
      rw [List.map_append]
      congr 1
      · conv_rhs => rw [← List.map_id db.customers]
        refine List.map_congr_left ?_
        intro c hc
        have hne : c.id ≠ db.nextId := Nat.ne_of_lt (hfresh c hc)
        simp [hne]
      · simp [insertCustomerRow, patchCustomer]
    have hsame : (upsertCustomer (upsertCustomer db a).db a).db =
        (upsertCustomer db a).db := by
      rw [hdb2, hc1, hmapid, ← hc1]
    refine ⟨?_, hsame⟩
    rw [hsame, hc1]
    rw [List.filter_append]
    have hnil : db.customers.filter (fun c => c.stripeId == a.stripeId) = [] :=
      List.filter_eq_nil_iff.mpr hall
    rw [hnil]
    simp [insertCustomerRow]

/-- A degenerate store already holding two rows with the same remote
customer id. -/
def c2dupDb : DB :=
  { customers := [⟨0, "cus_1", "u1", "a@b.c", none, none, 1, none⟩,
                  ⟨1, "cus_1", "u2", "b@b.c", none, none, 2, none⟩],
    products := [], prices := [], subscriptions := [], invoices := [],
    nextId := 2 }

/-- The upsert arguments used against the degenerate store. -/
def c2args : UpsertCustomerArgs := ⟨"cus_1", "u1", "a@b.c", none, none, 1, none⟩

/-- Counterexample for C2 as frozen: over ALL database states the claim
fails — starting from a store that already holds two rows for cus_1,
two identical upserts still leave two rows for that remote id, not
exactly one. -/
theorem upsertCustomer_idempotent_counterexample :
    ((upsertCustomer (upsertCustomer c2dupDb c2args).db c2args).db.customers.filter
        (fun c => c.stripeId == "cus_1")).length = 2 := by decide

/-- A fresh store plus one existing row for another remote id. -/
def c2db : DB :=
  { customers := [⟨0, "cus_0", "u0", "z@b.c", none, none, 1, none⟩],
    products := [], prices := [], subscriptions := [], invoices := [],
    nextId := 1 }

/-- Witness for C2 (amended): from a well-formed store, two identical
upserts of cus_1 leave exactly one cus_1 row and the second call
changes nothing. -/
theorem upsertCustomer_idempotent_witness :
    ((upsertCustomer (upsertCustomer c2db c2args).db c2args).db.customers.filter
        (fun c => c.stripeId == "cus_1")).length = 1 ∧
    (upsertCustomer (upsertCustomer c2db c2args).db c2args).db =
      (upsertCustomer c2db c2args).db :=
  upsertCustomer_idempotent c2db c2args (by decide) (by decide)

-- ===== CLAIM C4 =====

/-- C4: during subscription backfill, a subscription whose remote
customer id has no local customer row contributes no store writes and
no store change at all, and processing the page continues with the
remaining items exactly as if the dropped item were absent. -/
theorem syncSubscriptions_drops_unknown_customer (db : DB)
    (sub : SubEventObj) (rest : List SubEventObj)
    (h : findCustomerByStripeId db sub.customer = none) :
    syncSubscriptionsPage db (sub :: rest) = syncSubscriptionsPage db rest := by
  have hskip : syncSubscriptionItem db sub = { db := db, writes := [] } := by
    unfold syncSubscriptionItem
    rw [h]
  show (let r := syncSubscriptionItem db sub
        let rr := syncSubscriptionsPage r.db rest
        ((rr.1 : DB), r.writes ++ rr.2)) = _
  rw [hskip]
  simp

/-- A store that knows customer cus_known but not cus_ghost. -/
def c4db : DB :=
  { customers := [⟨0, "cus_known", "u1", "a@b.c", none, none, 1, none⟩],
    products := [], prices := [], subscriptions := [], invoices := [],
    nextId := 1 }

/-- A subscription whose remote customer is unknown locally. -/
def c4ghost : SubEventObj :=
  ⟨"sub_g", "cus_ghost", [⟨⟨"price_1"⟩, 100, 200⟩], "active", "usd",
   false, none, none, none, none, 50, none⟩

/-- A subscription whose remote customer is known locally. -/
def c4known : SubEventObj :=
  ⟨"sub_k", "cus_known", [⟨⟨"price_1"⟩, 100, 200⟩], "active", "usd",
   false, none, none, none, none, 60, none⟩

/-- Witness for C4: the page starting with the unknown-customer item
processes exactly like the page without it — the known item after it is
still synced. -/
theorem syncSubscriptions_drops_unknown_customer_witness :
    syncSubscriptionsPage c4db [c4ghost, c4known] =
      syncSubscriptionsPage c4db [c4known] :=
  syncSubscriptions_drops_unknown_customer c4db c4ghost [c4known] (by decide)

-- ===== CLAIM C5 =====

/-- The existing-row branch of upsertInvoice leaves the matched row
findable as its patched version. -/
theorem upsertInvoice_find_patch (db : DB) (a : UpsertInvoiceArgs)
    (sid : String) (hsid : a.stripeId = sid) (inv0 : Invoice)
    (h : findInvoiceByStripeId db sid = some inv0) :
    findInvoiceByStripeId (upsertInvoice db a).db sid =
      some (patchInvoice inv0 a) := by
  subst hsid
  unfold upsertInvoice
  rw [h]
  show (db.invoices.map _).find? _ = _
  have hstep := find?_map_of_pred_inv
    (p := fun q : Invoice => q.stripeId == a.stripeId)
    (f := fun q => if q.id == inv0.id then patchInvoice q a else q)
    (by intro q; by_cases hq : (q.id == inv0.id) = true <;>
      simp [hq, patchInvoice]) h
  simpa using hstep

/-- The absent-row branch of upsertInvoice makes the inserted row
findable. -/
theorem upsertInvoice_find_insert (db : DB) (a : UpsertInvoiceArgs)
    (sid : String) (hsid : a.stripeId = sid)
    (h : findInvoiceByStripeId db sid = none) :
    findInvoiceByStripeId (upsertInvoice db a).db sid =
      some (insertInvoiceRow db.nextId a) := by
  subst hsid
  unfold upsertInvoice
  rw [h]
  show (db.invoices ++ [insertInvoiceRow db.nextId a]).find? _ = _
  rw [List.find?_append]
  have hfn : db.invoices.find? (fun i => i.stripeId == a.stripeId) = none := h
  rw [hfn]
  simp [insertInvoiceRow, List.find?]

/-- C5 (amended): an invoice webhook event whose payload carries a
nested subscription reference stores that linkage only when the invoice
is new: the insert branch records the resolved subscription remote id
and local id, but for an already-stored invoice the update branch
patches only status, amountPaid, amountRemaining, invoicePdf,
hostedInvoiceUrl, paidAt and metadata, leaving the stored (possibly
absent) subscription linkage exactly as it was — a later webhook event
does not repair an absent linkage. -/
theorem handleInvoiceEvent_linkage (db : DB) (inv : InvoiceEventObj)
    (cust : Customer) (s : String) (sub : Subscription)
    (hc : findCustomerByStripeId db (inv.customer.getD "") = some cust)
    (href : inv.parent.bind (fun p => p.subscription_details) = some ⟨some s⟩)
    (hs : (s == "") = false)
    (hsub : findSubscriptionByStripeId db s = some sub) :
    (findInvoiceByStripeId db inv.id = none →
      (findInvoiceByStripeId (handleInvoiceEvent db inv).db inv.id).map
          (fun r => (r.subscriptionStripeId, r.subscriptionId)) =
        some (some s, some sub.id)) ∧
    (∀ inv0, findInvoiceByStripeId db inv.id = some inv0 →
      (findInvoiceByStripeId (handleInvoiceEvent db inv).db inv.id).map
          (fun r => (r.subscriptionStripeId, r.subscriptionId)) =
        some (inv0.subscriptionStripeId, inv0.subscriptionId)) := by
  unfold handleInvoiceEvent
  simp only [hc, href, hs, hsub]
  constructor
  · intro hnone
    rw [upsertInvoice_find_insert db _ inv.id rfl hnone]
    simp [insertInvoiceRow]
  · intro inv0 hsome
    rw [upsertInvoice_find_patch db _ inv.id rfl inv0 hsome]
    simp [patchInvoice]

/-- A store with a customer, a subscription, and an invoice stored with
absent subscription linkage. -/
def c5db : DB :=
  { customers := [⟨0, "cus_1", "u1", "a@b.c", none, none, 1, none⟩],
    products := [], prices := [],
    subscriptions :=
      [⟨1, "sub_1", 0, "cus_1", "u1", "active", none, none, none, "usd",
        0, 0, false, none, none, none, none, 5, none⟩],
    invoices :=
      [⟨2, "in_1", 0, "cus_1", "u1", none, none, "open", "usd", 1999, 0,
        1999, 1999, 1999, none, none, none, none, 100, 200, none, none,
        50, none⟩],
    nextId := 3 }

/-- An invoice.paid style payload for in_1 carrying the nested
subscription reference sub_1. -/
def c5ev : InvoiceEventObj :=
  ⟨"in_1", some "cus_1", some ⟨some ⟨some "sub_1"⟩⟩, some "paid", "usd",
   1999, 1999, 0, 1999, 1999, none, none, none, 100, 200, none,
   some ⟨some 300⟩, 50, none⟩

/-- Counterexample for C5 as frozen: the locally stored invoice in_1
has absent subscription linkage, the event payload carries the
resolvable reference sub_1, yet after processing the event the stored
linkage is still absent — the update branch of upsertInvoice never
touches it. -/
theorem handleInvoiceEvent_linkage_counterexample :
    ((c5db.invoices.head?).map (fun r => r.subscriptionStripeId) =
        some none) ∧
    c5ev.parent = some ⟨some ⟨some "sub_1"⟩⟩ ∧
    findSubscriptionByStripeId c5db "sub_1" =
      some ⟨1, "sub_1", 0, "cus_1", "u1", "active", none, none, none,
        "usd", 0, 0, false, none, none, none, none, 5, none⟩ ∧
    (findInvoiceByStripeId (handleInvoiceEvent c5db c5ev).db "in_1").map
        (fun r => (r.subscriptionStripeId, r.subscriptionId)) =
      some (none, none) := by decide

/-- The same store without the stored invoice, so the event inserts. -/
def c5dbNew : DB :=
  { customers := [⟨0, "cus_1", "u1", "a@b.c", none, none, 1, none⟩],
    products := [], prices := [],
    subscriptions :=
      [⟨1, "sub_1", 0, "cus_1", "u1", "active", none, none, none, "usd",
        0, 0, false, none, none, none, none, 5, none⟩],
    invoices := [], nextId := 3 }

/-- The customer row shared by c5db and c5dbNew. -/
def c5cust : Customer := ⟨0, "cus_1", "u1", "a@b.c", none, none, 1, none⟩

/-- The subscription row shared by c5db and c5dbNew. -/
def c5sub : Subscription :=
  ⟨1, "sub_1", 0, "cus_1", "u1", "active", none, none, none, "usd",
   0, 0, false, none, none, none, none, 5, none⟩

/-- The stored invoice of c5db, with absent linkage. -/
def c5inv : Invoice :=
  ⟨2, "in_1", 0, "cus_1", "u1", none, none, "open", "usd", 1999, 0,
   1999, 1999, 1999, none, none, none, none, 100, 200, none, none,
   50, none⟩

/-- Witness for C5 (amended): inserting a new invoice records linkage
(sub_1, local id 1); updating the existing linkage-free invoice leaves
the linkage absent. -/
theorem handleInvoiceEvent_linkage_witness :
    (findInvoiceByStripeId (handleInvoiceEvent c5dbNew c5ev).db "in_1").map
        (fun r => (r.subscriptionStripeId, r.subscriptionId)) =
      some (some "sub_1", some 1) ∧
    (findInvoiceByStripeId (handleInvoiceEvent c5db c5ev).db "in_1").map
        (fun r => (r.subscriptionStripeId, r.subscriptionId)) =
      some (c5inv.subscriptionStripeId, c5inv.subscriptionId) :=
  ⟨(handleInvoiceEvent_linkage c5dbNew c5ev c5cust "sub_1" c5sub
      (by decide) (by decide) (by decide) (by decide)).1 (by decide),
   (handleInvoiceEvent_linkage c5db c5ev c5cust "sub_1" c5sub
      (by decide) (by decide) (by decide) (by decide)).2 c5inv (by decide)⟩

-- ===== CLAIM C6 =====

/-- Every entry of a configured-callback trace is a callback. -/
theorem cbTrace_all_callback (b : Bool) (n : String) :
    ∀ e ∈ cbTrace b n, e.isCallback = true := by
  intro e he
  unfold cbTrace at he
  cases b with
  | true =>
    simp at he
    subst he
    rfl
  | false => simp at he

/-- The trace of any dispatched event is a block of store writes
followed by a block of callback invocations. -/
theorem handleWebhookEvent_trace_shape (cfg : List (String × String))
    (db : DB) (ev : StripeEvent) (cbs : Callbacks) :
    ∃ (ws : List DbWrite) (tail : List TraceEntry),
      (handleWebhookEvent cfg db ev cbs).2 =
        ws.map TraceEntry.write ++ tail ∧
      ∀ e ∈ tail, e.isCallback = true := by
  cases ev with
  | checkoutSessionCompleted obj =>
    exact ⟨(handleCheckoutComplete db obj).writes,
      cbTrace cbs.onCheckoutComplete "onCheckoutComplete", rfl,
      cbTrace_all_callback _ _⟩
  | customerSubscriptionCreated obj =>
    exact ⟨(handleSubscriptionUpdate db obj).writes,
      cbTrace cbs.onSubscriptionCreated "onSubscriptionCreated", rfl,
      cbTrace_all_callback _ _⟩
  | customerSubscriptionUpdated obj =>
    exact ⟨(handleSubscriptionUpdate db obj).writes,
      cbTrace cbs.onSubscriptionUpdated "onSubscriptionUpdated", rfl,
      cbTrace_all_callback _ _⟩
  | customerSubscriptionDeleted obj =>
    exact ⟨(handleSubscriptionDelete db obj).writes,
      cbTrace cbs.onSubscriptionDeleted "onSubscriptionDeleted", rfl,
      cbTrace_all_callback _ _⟩
  | invoicePaid obj =>
    exact ⟨(handleInvoiceEvent db obj).writes,
      cbTrace cbs.onInvoicePaid "onInvoicePaid", rfl,
      cbTrace_all_callback _ _⟩
  | invoicePaymentFailed obj =>
    exact ⟨(handleInvoiceEvent db obj).writes,
      cbTrace cbs.onInvoiceFailed "onInvoiceFailed", rfl,
      cbTrace_all_callback _ _⟩
  | invoiceFinalized obj =>
    refine ⟨(handleInvoiceEvent db obj).writes, [], ?_, ?_⟩
    · rw [List.append_nil]
      rfl
    · intro e he
      simp at he
  | productCreated obj =>
    refine ⟨(handleProductUpdate cfg db obj).writes, [], ?_, ?_⟩
    · rw [List.append_nil]
      rfl
    · intro e he
      simp at he
  | productUpdated obj =>
    refine ⟨(handleProductUpdate cfg db obj).writes, [], ?_, ?_⟩
    · rw [List.append_nil]
      rfl
    · intro e he
      simp at he
  | priceCreated obj =>
    refine ⟨(handlePriceUpdate db obj).writes, [], ?_, ?_⟩
    · rw [List.append_nil]
      rfl
    · intro e he
      simp at he
  | priceUpdated obj =>
    refine ⟨(handlePriceUpdate db obj).writes, [], ?_, ?_⟩
    · rw [List.append_nil]
      rfl
    · intro e he
      simp at he
  | unhandled t =>
    exact ⟨[], [], rfl, by intro e he; simp at he⟩

/-- In a write-block-then-callback-block list, every write position
precedes every callback position. -/
theorem write_before_callback_in_append {ws : List DbWrite}
    {tail : List TraceEntry}
    (htail : ∀ e ∈ tail, e.isCallback = true) (i j : Nat)
    (hi : i < (ws.map TraceEntry.write ++ tail).length)
    (hj : j < (ws.map TraceEntry.write ++ tail).length)
    (hwi : ((ws.map TraceEntry.write ++ tail).get ⟨i, hi⟩).isWrite = true)
    (hcj : ((ws.map TraceEntry.write ++ tail).get ⟨j, hj⟩).isCallback = true) :
    i < j := by
  have hlenw : i < (ws.map TraceEntry.write).length := by
    by_contra hcon
    push_neg at hcon
    have hmem : ((ws.map TraceEntry.write ++ tail).get ⟨i, hi⟩) ∈ tail := by
      rw [List.get_eq_getElem, List.getElem_append_right hcon]
      exact List.getElem_mem _
    have hcb := htail _ hmem
    cases hx : (ws.map TraceEntry.write ++ tail).get ⟨i, hi⟩ with
    | write w => rw [hx] at hcb; simp [TraceEntry.isCallback] at hcb
    | callback n => rw [hx] at hwi; simp [TraceEntry.isWrite] at hwi
  have hjtail : (ws.map TraceEntry.write).length ≤ j := by
    by_contra hcon
    push_neg at hcon
    have hjw : ((ws.map TraceEntry.write ++ tail).get ⟨j, hj⟩) =
        TraceEntry.write (ws.get ⟨j, by simpa using hcon⟩) := by
      rw [List.get_eq_getElem, List.getElem_append_left hcon]
      simp
    rw [hjw] at hcj
    simp [TraceEntry.isCallback] at hcj
  exact Nat.lt_of_lt_of_le hlenw hjtail

/-- C6: in the effect trace of any dispatched webhook event, every
caller-supplied callback invocation comes strictly after every store
write of that event's reconciliation — a callback never runs before the
local mirror write. -/
theorem webhook_callbacks_after_writes (cfg : List (String × String))
    (db : DB) (ev : StripeEvent) (cbs : Callbacks) (i j : Nat)
    (hi : i < ((handleWebhookEvent cfg db ev cbs).2).length)
    (hj : j < ((handleWebhookEvent cfg db ev cbs).2).length)
    (hwi : (((handleWebhookEvent cfg db ev cbs).2).get ⟨i, hi⟩).isWrite = true)
    (hcj : (((handleWebhookEvent cfg db ev cbs).2).get ⟨j, hj⟩).isCallback =
      true) :
    i < j := by
  obtain ⟨ws, tail, heq, htail⟩ := handleWebhookEvent_trace_shape cfg db ev cbs
  have hi2 : i < (ws.map TraceEntry.write ++ tail).length := heq ▸ hi
  have hj2 : j < (ws.map TraceEntry.write ++ tail).length := heq ▸ hj
  have hwi2 : ((ws.map TraceEntry.write ++ tail).get ⟨i, hi2⟩).isWrite =
      true := by
    rw [← List.get_of_eq heq ⟨i, hi⟩]
    exact hwi
  have hcj2 : ((ws.map TraceEntry.write ++ tail).get ⟨j, hj2⟩).isCallback =
      true := by
    rw [← List.get_of_eq heq ⟨j, hj⟩]
    exact hcj
  exact write_before_callback_in_append htail i j hi2 hj2 hwi2 hcj2

/-- A store holding the subscription the delete event targets. -/
def c6db : DB :=
  { customers := [], products := [], prices := [],
    subscriptions :=
      [⟨0, "sub_1", 5, "cus_1", "u1", "active", none, none, none, "usd",
        0, 0, false, none, none, none, none, 5, none⟩],
    invoices := [], nextId := 1 }

/-- A subscription deleted event for sub_1. -/
def c6ev : StripeEvent :=
  StripeEvent.customerSubscriptionDeleted
    ⟨"sub_1", "cus_1", [], "canceled", "usd", false, none, none, none,
     none, 5, none⟩

/-- All callbacks configured. -/
def c6cbs : Callbacks := ⟨true, true, true, true, true, true⟩

/-- Witness for C6: the delete event produces the two-entry trace
write-then-callback, and the theorem places the write (position 0)
before the callback (position 1). -/
theorem webhook_callbacks_after_writes_witness :
    (handleWebhookEvent [] c6db c6ev c6cbs).2 =
      [TraceEntry.write (DbWrite.delete "subscriptions" 0),
       TraceEntry.callback "onSubscriptionDeleted"] ∧
    (0 : Nat) < 1 :=
  ⟨by decide,
   webhook_callbacks_after_writes [] c6db c6ev c6cbs 0 1 (by decide)
     (by decide) (by decide) (by decide)⟩

-- ===== CLAIM C3 =====

/-- The pagination loop of syncSubscriptions succeeds on exactly the
page chain its provider yields within the fuel, and its visited items
are the concatenation of the chain's pages in order. -/
theorem syncSubscriptionsLoop_visits (pages : Option String → SubPage) :
    ∀ (n : Nat) (cursor : Option String) (db : DB) (chain : List SubPage),
      subPageChain pages n cursor = some chain →
      ∃ dbf ws, syncSubscriptionsLoop pages n db cursor =
        some (dbf, (chain.map SubPage.data).flatten, ws) := by
  intro n
  induction n with
  | zero =>
    intro cursor db chain h
    simp [subPageChain] at h
  | succ f ih =>
    intro cursor db chain h
    simp only [subPageChain] at h
    simp only [syncSubscriptionsLoop]
    by_cases hm : (pages cursor).has_more = true
    · rw [if_pos hm] at h ⊢
      cases hrest : subPageChain pages f
          (if (pages cursor).data.length > 0
            then ((pages cursor).data.getLast?).map (fun s => s.id)
            else cursor) with
      | none => rw [hrest] at h; simp at h
      | some rest =>
        rw [hrest] at h
        simp only [Option.some.injEq] at h
        subst h
        obtain ⟨dbf, ws, hloop⟩ := ih
          (if (pages cursor).data.length > 0
            then ((pages cursor).data.getLast?).map (fun s => s.id)
            else cursor)
          (syncSubscriptionsPage db (pages cursor).data).1 rest hrest
        rw [hloop]
        exact ⟨dbf, (syncSubscriptionsPage db (pages cursor).data).2 ++ ws,
          by simp⟩
    · rw [if_neg hm] at h ⊢
      simp only [Option.some.injEq] at h
      subst h
      exact ⟨(syncSubscriptionsPage db (pages cursor).data).1,
        (syncSubscriptionsPage db (pages cursor).data).2, by simp⟩

/-- C3 (amended): the subscriptions backfill sync, fed a provider whose
cursor-following page chain reaches a page reporting no continuation
within the given fuel, terminates with a result and its visited items
are exactly the concatenation of all the chain's pages in order — so
every item appears among the visited ones precisely as often as the
provider serves it, each served-once item being visited exactly once.
The products+prices sync is excluded from the amended claim: it issues
one non-paginated list call and never follows the continuation cursor
(see the counterexample). -/
theorem syncSubscriptions_terminates_visits (pages : Option String → SubPage)
    (n : Nat) (chain : List SubPage) (db : DB)
    (h : subPageChain pages n none = some chain) :
    ∃ dbf ws, syncSubscriptions pages n db =
      some (dbf, (chain.map SubPage.data).flatten, ws) :=
  syncSubscriptionsLoop_visits pages n none db chain h

/-- First-page product served by the counterexample provider. -/
def c3prodA : ProductEventObj := ⟨"prod_a", "A", none, true, none, 1, 1, none⟩

/-- Second-page product the products sync never sees. -/
def c3prodB : ProductEventObj := ⟨"prod_b", "B", none, true, none, 2, 2, none⟩

/-- A paginated products provider: first page holds prod_a and reports
a continuation; the page after the prod_a cursor holds prod_b. -/
def c3prodPages : Option String → ProdPage := fun cursor =>
  match cursor with
  | none => ⟨[c3prodA], true⟩
  | some _ => ⟨[c3prodB], false⟩

/-- A prices provider with no prices. -/
def c3prices : String → PricePage := fun _ => ⟨[], false⟩

/-- Counterexample for C3 as frozen: over the products+prices backfill
routine the claim fails — the provider reports a continuation after the
first page and serves prod_b exactly once on the second page, yet
syncProducts visits prod_b zero times, because it issues a single list
call and never follows the cursor. -/
theorem syncProducts_misses_later_pages :
    (c3prodPages none).has_more = true ∧
    (c3prodPages (some "prod_a")).data.count c3prodB = 1 ∧
    (syncProducts c3prodPages c3prices [] DB.empty).2.1.count c3prodB = 0 := by
  decide

/-- Subscriptions for the witness provider. -/
def c3s1 : SubEventObj :=
  ⟨"s1", "cus_x", [], "active", "usd", false, none, none, none, none, 1, none⟩

/-- Second subscription of the first page. -/
def c3s2 : SubEventObj :=
  ⟨"s2", "cus_x", [], "active", "usd", false, none, none, none, none, 2, none⟩

/-- The only subscription of the second page. -/
def c3s3 : SubEventObj :=
  ⟨"s3", "cus_x", [], "active", "usd", false, none, none, none, none, 3, none⟩

/-- A two-page subscriptions provider keyed by the last-item cursor. -/
def c3pages : Option String → SubPage := fun cursor =>
  match cursor with
  | none => ⟨[c3s1, c3s2], true⟩
  | some "s2" => ⟨[c3s3], false⟩
  | some _ => ⟨[], false⟩

/-- Witness for C3 (amended): the two-page chain resolves within fuel 2
and the sync visits s1, s2, s3 exactly once each, in order. -/
theorem syncSubscriptions_terminates_visits_witness :
    subPageChain c3pages 2 none =
      some [⟨[c3s1, c3s2], true⟩, ⟨[c3s3], false⟩] ∧
    ∃ dbf ws, syncSubscriptions c3pages 2 DB.empty =
      some (dbf, [c3s1, c3s2, c3s3], ws) :=
  ⟨by decide,
   syncSubscriptions_terminates_visits c3pages 2
     [⟨[c3s1, c3s2], true⟩, ⟨[c3s3], false⟩] DB.empty (by decide)⟩

end ConvexStripe
